import Mathlib

/-!
Shallow embedding of the `rusty_weather` command-line program
(src/main.rs) in Lean 4, together with theorems settling the claims of
its natural-language specification.

Modelling conventions:
* Rust `f64` values are modelled as rationals (ℚ); no claim here depends
  on rounding or non-finite floats.
* Strings are Lean `String`s; lengths are character counts (all strings
  appearing in the program's glyph table and labels are ASCII, where byte
  and character counts coincide).
* The YAML config file is modelled at the structured-document level
  (an ordered list of key/scalar pairs), since serde_yaml is an external
  black box; see `serializeConfig` / `parseConfig`.
* The file system is a map from paths to optional documents; standard
  input is a list of lines; the two HTTP calls are oracles carried in an
  `Env` record.
-/

namespace RustyWeather

/-- The persisted configuration record (struct `Config` in main.rs). -/
structure Config where
  api_key : String
  latitude : ℚ
  longitude : ℚ
  units : String
deriving Repr, DecidableEq

/-- The default `Config` built by `main` when no config file exists. -/
def defaultConfig : Config :=
  { api_key := "", latitude := 0, longitude := 0, units := "imperial" }

/-- A YAML scalar: string or number (the only kinds the config uses). -/
inductive YScalar where
  | str (s : String)
  | num (q : ℚ)
deriving Repr, DecidableEq

/-- Modelled from the spec: the config file's content as a structured
key-value document (§6 "structured text document with exactly four
top-level scalar fields"); serde_yaml's concrete text encoding is an
external library outside the repository's source. -/
abbrev YamlDoc := List (String × YScalar)

/-- Serialization of a `Config` (serde_yaml::to_string, at the
structured-document level): the four fields in declaration order. -/
def serializeConfig (c : Config) : YamlDoc :=
  [("api_key", .str c.api_key), ("latitude", .num c.latitude),
   ("longitude", .num c.longitude), ("units", .str c.units)]

/-- Look up a string-valued key in a document. -/
def lookupStr (d : YamlDoc) (k : String) : Option String :=
  match d.lookup k with
  | some (.str s) => some s
  | _ => none

/-- Look up a number-valued key in a document. -/
def lookupNum (d : YamlDoc) (k : String) : Option ℚ :=
  match d.lookup k with
  | some (.num q) => some q
  | _ => none

/-- Parsing of a document into a `Config` (serde_yaml::from_str at the
structured-document level): all four fields must be present with the
right scalar kind, otherwise parsing fails. -/
def parseConfig (d : YamlDoc) : Option Config :=
  match lookupStr d "api_key", lookupNum d "latitude",
        lookupNum d "longitude", lookupStr d "units" with
  | some a, some la, some lo, some u =>
      some { api_key := a, latitude := la, longitude := lo, units := u }
  | _, _, _, _ => none

/-- File system state: content (if any) at each path. -/
abbrev FS := String → Option YamlDoc

/-- The fixed config path used by `main`. -/
def configPath : String := "config.yaml"

/-- `save_config` from main.rs: truncate-and-write the serialized config
at `path` (OpenOptions write/create/truncate). -/
def save_config (c : Config) (path : String) (fs : FS) : FS :=
  fun p => if p = path then some (serializeConfig c) else fs p

/-- Reading and parsing the config file at `path` (the load half of
`main`'s read-or-default logic). -/
def readConfig (fs : FS) (path : String) : Option Config :=
  (fs path).bind parseConfig

/-- serde_json's `Value`, with numbers as rationals. -/
inductive Json where
  | null
  | bool (b : Bool)
  | num (q : ℚ)
  | str (s : String)
  | arr (xs : List Json)
  | obj (fields : List (String × Json))

/-- `Value` indexing by a string key (`json["k"]`): the field's value on
an object that has the key, `Null` otherwise. -/
def Json.indexStr : Json → String → Json
  | .obj fields, k =>
      match fields.lookup k with
      | some v => v
      | none => .null
  | _, _ => .null

/-- `Value` indexing by a position (`json[0]`): the element on an array
that is long enough, `Null` otherwise. -/
def Json.indexNat : Json → Nat → Json
  | .arr xs, i => xs.getD i .null
  | _, _ => .null

/-- `Value::as_f64`: `Some` exactly on numbers. -/
def Json.as_f64 : Json → Option ℚ
  | .num q => some q
  | _ => none

/-- `Value::as_str`: `Some` exactly on strings. -/
def Json.as_str : Json → Option String
  | .str s => some s
  | _ => none

/-- `json["name"].as_str().unwrap_or("Unknown")` in print_weather_info. -/
def cityOf (j : Json) : String :=
  ((j.indexStr "name").as_str).getD "Unknown"

/-- `json["main"]["temp"].as_f64().unwrap_or(0.0)`. -/
def tempOf (j : Json) : ℚ :=
  (((j.indexStr "main").indexStr "temp").as_f64).getD 0

/-- `json["main"]["temp_max"].as_f64().unwrap_or(0.0)`. -/
def tempMaxOf (j : Json) : ℚ :=
  (((j.indexStr "main").indexStr "temp_max").as_f64).getD 0

/-- `json["weather"][0]["temp_min"].as_f64().unwrap_or(0.0)`: read from
the first condition sub-record, exactly as the source does. -/
def tempMinOf (j : Json) : ℚ :=
  ((((j.indexStr "weather").indexNat 0).indexStr "temp_min").as_f64).getD 0

/-- `json["wind"]["speed"].as_f64().unwrap_or(0.0)`. -/
def windSpeedOf (j : Json) : ℚ :=
  (((j.indexStr "wind").indexStr "speed").as_f64).getD 0

/-- `json["weather"][0]["main"].as_str().unwrap_or("Unknown")`. -/
def descriptionOf (j : Json) : String :=
  ((((j.indexStr "weather").indexNat 0).indexStr "main").as_str).getD "Unknown"

/-- The `weather_art` HashMap of print_weather_info, as a lookup on the
four known condition labels. -/
def weather_art (d : String) : Option (List String) :=
  if d = "Clear" then some [" \\ | / ", "- ( ) -", " / | \\ ", "       "]
  else if d = "Clouds" then
    some ["    .-.   ", " .-(   ). ", "(________)", "          "]
  else if d = "Rain" then some ["' '' '", " ' '' ", "''  ' ", "      "]
  else if d = "Snow" then some ["*  * *", " *  * ", "* *  *", "      "]
  else none

/-- The fallback glyph `binding = vec!["   "; 4 lines]`. -/
def binding : List String := ["   ", "   ", "   ", "   "]

/-- `weather_art.get(description).unwrap_or(&binding)`. -/
def artFor (d : String) : List String :=
  (weather_art d).getD binding

/-- A run of `n` spaces. -/
def spaces (n : Nat) : String := String.mk (List.replicate n ' ')

/-- Rust's centered field format `{:^width$}`: unchanged when the string
already fills the width, otherwise padded with spaces, the extra space
going to the right when the padding is odd. -/
def centerPad (s : String) (width : Nat) : String :=
  if width ≤ s.length then s
  else
    let pad := width - s.length
    spaces (pad / 2) ++ s ++ spaces (pad - pad / 2)

/-- `cmp::max(art[3].len(), city.len())` in print_weather_info. -/
def displayWidth (j : Json) : Nat :=
  max ((artFor (descriptionOf j)).getD 3 "").length (cityOf j).length

/-- One printed line of the report: the centered left segment, the label
after the `|`, and the numeric value after the label's colon. -/
structure WLine where
  left : String
  label : String
  value : ℚ
deriving Repr, DecidableEq

/-- `print_weather_info`: the four lines printed for a weather JSON. -/
def print_weather_info (j : Json) : List WLine :=
  let city := cityOf j
  let art := artFor (descriptionOf j)
  let width := displayWidth j
  let city_centered := centerPad city width
  [ { left := centerPad (art.getD 0 "") width, label := "Temperature",
      value := tempOf j },
    { left := centerPad (art.getD 1 "") width, label := "Min",
      value := tempMaxOf j },
    { left := centerPad (art.getD 2 "") width, label := "Max",
      value := tempMinOf j },
    { left := city_centered, label := "Wind Speed",
      value := windSpeedOf j } ]

/-- The parsed command-line arguments (struct `Args`). -/
structure Args where
  setup : Bool
  zip : Option String

/-- The run environment: standard-input lines and the two HTTP oracles
(geocode by zip+key; weather by key, coordinates and units). -/
structure Env where
  stdin : List String
  geocode : String → String → Except String (ℚ × ℚ)
  weather : String → ℚ → ℚ → String → Except String Json

/-- Rust's `str::trim`: drop leading and trailing whitespace (modelled
as ASCII whitespace, which covers every input these claims touch). -/
def rustTrim (s : String) : String :=
  String.mk
    (((s.data.dropWhile Char.isWhitespace).reverse.dropWhile
        Char.isWhitespace).reverse)

/-- `prompt_update`'s keep-or-replace rule as a pure function of the
current value and the raw input line: keep on empty trimmed input,
otherwise the trimmed input. -/
def prompt_update (current input : String) : String :=
  let trimmed := rustTrim input
  if trimmed.isEmpty then current else trimmed

/-- `stdin.read_line`: the next line, or the empty string at end of
input. -/
def read_line : List String → String × List String
  | [] => ("", [])
  | l :: rest => (l, rest)

/-- One prompt step of update_config: read a line, apply the
keep-or-replace rule, return the remaining input. -/
def promptStep (current : String) (stdin : List String) :
    String × List String :=
  let (input, rest) := read_line stdin
  (prompt_update current input, rest)

/-- The outcome of `update_config`: the mutated config, the unconsumed
input, and the non-prompt messages printed. -/
structure SetupResult where
  config : Config
  stdin : List String
  messages : List String

/-- The ZIP block of update_config (`if !zip_code.is_empty() { match
get_lat_long(..) .. }`): on success overwrite the coordinates and report
them, on failure report the error and leave the config unchanged. -/
def zipStep (env : Env) (c : Config) (zip_code : String) :
    Config × List String :=
  if zip_code.isEmpty then (c, [])
  else
    match env.geocode zip_code c.api_key with
    | .ok (lat, lon) =>
        ({ c with latitude := lat, longitude := lon },
         ["Coordinates found: Latitude = " ++ toString lat
            ++ ", Longitude = " ++ toString lon])
    | .error e => (c, ["Failed to retrieve coordinates: " ++ e])

/-- `update_config`: prompt for the API key, the units and a ZIP code in
sequence, then run the ZIP block with the possibly-updated API key. -/
def update_config (env : Env) (c : Config) (stdin : List String) :
    SetupResult :=
  let (api_key, s1) := promptStep c.api_key stdin
  let (units, s2) := promptStep c.units s1
  let (zip_code, s3) := promptStep "" s2
  let c1 := { c with api_key := api_key, units := units }
  let (c2, msgs) := zipStep env c1 zip_code
  { config := c2, stdin := s3,
    messages := "Press Enter to keep existing values." :: msgs }

/-- How the process ends: a normal zero exit, a nonzero exit from `main`
returning an error (the `?` on config read/parse), or a panic (the
`todo!()` on a failed --zip geocode). -/
inductive Outcome where
  | exit0
  | exitErr (msg : String)
  | panicked
deriving Repr, DecidableEq

/-- The observable result of one process run. -/
structure RunResult where
  outcome : Outcome
  fs : FS
  stdout : List String
  stderr : List String
  weatherOut : Option (List WLine)

/-- The coordinates used for the fetch: the stored ones without --zip,
the geocoded ones when --zip succeeds, and `none` (the `todo!()` panic)
when --zip's geocode fails. -/
def resolveCoords (env : Env) (zip : Option String) (api_key : String)
    (lat lon : ℚ) : Option (ℚ × ℚ) :=
  match zip with
  | none => some (lat, lon)
  | some z =>
      match env.geocode z api_key with
      | .ok p => some p
      | .error _ => none

/-- `main` after the config has been obtained: the --setup branch, the
missing-API-key guidance branch, and the --zip/fetch/print sequence. -/
def runAfterLoad (env : Env) (args : Args) (config : Config) (fs : FS) :
    RunResult :=
  if args.setup then
    let r := update_config env config env.stdin
    { outcome := .exit0,
      fs := save_config r.config configPath fs,
      stdout := "Updating configuration..." :: r.messages
        ++ ["Configuration updated successfully."],
      stderr := [], weatherOut := none }
  else if config.api_key.isEmpty then
    { outcome := .exit0, fs := fs,
      stdout := ["No API key configured, please run --setup."],
      stderr := [], weatherOut := none }
  else
    match resolveCoords env args.zip config.api_key
        config.latitude config.longitude with
    | none =>
        { outcome := .panicked, fs := fs, stdout := [], stderr := [],
          weatherOut := none }
    | some (lat, lon) =>
        match env.weather config.api_key lat lon config.units with
        | .ok json =>
            { outcome := .exit0, fs := fs, stdout := [], stderr := [],
              weatherOut := some (print_weather_info json) }
        | .error e =>
            { outcome := .exit0, fs := fs, stdout := [],
              stderr := ["Error fetching weather data: " ++ e],
              weatherOut := none }

/-- `main`: read-or-default the config at `config.yaml`, then continue.
A present-but-unparsable file propagates the error out of `main`
(nonzero exit); a missing file yields the in-memory default plus the
printed notice, with nothing written to disk at this point. -/
def runMain (env : Env) (args : Args) (fs : FS) : RunResult :=
  match fs configPath with
  | some doc =>
      match parseConfig doc with
      | some c => runAfterLoad env args c fs
      | none =>
          { outcome := .exitErr "config parse error", fs := fs,
            stdout := [], stderr := [], weatherOut := none }
  | none =>
      let r := runAfterLoad env args defaultConfig fs
      { r with stdout := "Config file not found, creating default..." :: r.stdout }

/-! Concrete fixtures used by counterexamples and witnesses. -/

/-- An environment with no input and both HTTP oracles failing. -/
def offlineEnv : Env :=
  { stdin := [],
    geocode := fun _ _ => .error "offline",
    weather := fun _ _ _ _ => .error "offline" }

/-- An empty file system: no file at any path. -/
def emptyFs : FS := fun _ => none

/-- A run with neither `--setup` nor `--zip`. -/
def noFlags : Args := { setup := false, zip := none }

/-- A configuration with a non-empty API key and stored coordinates. -/
def cfgWithKey : Config :=
  { api_key := "k", latitude := 10, longitude := 20, units := "imperial" }

/-- A file system holding `cfgWithKey` at the config path. -/
def keyFs : FS := save_config cfgWithKey configPath emptyFs

/-- A run with `--zip 99999` and no `--setup`. -/
def zipArgs : Args := { setup := false, zip := some "99999" }

/-- A weather response for Reno with condition Clear. -/
def renoJson : Json :=
  .obj [("name", .str "Reno"),
        ("main", .obj [("temp", .num 65), ("temp_max", .num 71)]),
        ("weather", .arr [.obj [("main", .str "Clear"),
                                ("temp_min", .num 58)]]),
        ("wind", .obj [("speed", .num 5)])]

/-! Claim theorems. -/

/-- C1, counterexample: contrary to the claim, a first run with no flags
and no existing config file leaves no file at `config.yaml`: the run
completes with exit code 0 but the default config is never written to
disk (no save_config call occurs outside the --setup branch). -/
theorem C1_default_not_written_cex :
    (runMain offlineEnv noFlags emptyFs).fs configPath = none ∧
    (runMain offlineEnv noFlags emptyFs).outcome = Outcome.exit0 := by
  exact ⟨rfl, rfl⟩

/-- C1, amended: if no config file exists at the path, the program
constructs the default Config (api_key="", latitude=0, longitude=0,
units="imperial") in memory only and prints the default-created notice
followed by the "No API key configured" guidance, exiting 0; the file
system is left unchanged, so after a first run with no flags
`config.yaml` still does not exist (the default is only written to disk
when `--setup` later saves it). -/
theorem C1_first_run_defaults_in_memory (env : Env) (fs : FS)
    (h : fs configPath = none) :
    (runMain env noFlags fs).outcome = Outcome.exit0 ∧
    (runMain env noFlags fs).fs = fs ∧
    (runMain env noFlags fs).stdout =
      ["Config file not found, creating default...",
       "No API key configured, please run --setup."] ∧
    defaultConfig =
      { api_key := "", latitude := 0, longitude := 0,
        units := "imperial" } := by
  unfold runMain
  rw [h]
  exact ⟨rfl, rfl, rfl, rfl⟩

/-- C1, witness for the amended theorem at the empty file system. -/
theorem C1_witness :
    emptyFs configPath = none ∧
    ((runMain offlineEnv noFlags emptyFs).outcome = Outcome.exit0 ∧
     (runMain offlineEnv noFlags emptyFs).fs = emptyFs ∧
     (runMain offlineEnv noFlags emptyFs).stdout =
       ["Config file not found, creating default...",
        "No API key configured, please run --setup."] ∧
     defaultConfig =
       { api_key := "", latitude := 0, longitude := 0,
         units := "imperial" }) :=
  ⟨rfl, C1_first_run_defaults_in_memory offlineEnv emptyFs rfl⟩

/-- C5: each prompt step keeps the current value on empty trimmed input
and otherwise takes the entered (trimmed) value; in particular current
"metric" with an empty line stays "metric" and entering "imperial"
(with or without the line's trailing newline) yields "imperial". -/
theorem C5_prompt_update_rule (current input : String) :
    prompt_update current input =
      (if (rustTrim input).isEmpty then current else rustTrim input) ∧
    prompt_update "metric" "" = "metric" ∧
    prompt_update "metric" "\n" = "metric" ∧
    prompt_update "metric" "imperial" = "imperial" ∧
    prompt_update "metric" "imperial\n" = "imperial" := by
  refine ⟨rfl, rfl, by decide, rfl, by decide⟩

/-- C6: saving a Config to a path and then loading from that path
reproduces the same four field values, for every Config and path. -/
theorem C6_save_load_roundtrip (cfg : Config) (path : String) (fs : FS) :
    readConfig (save_config cfg path fs) path = some cfg := by
  simp [readConfig, save_config, parseConfig, serializeConfig,
    lookupStr, lookupNum, List.lookup]

/-- C8: every condition label outside {Clear, Clouds, Rain, Snow} gets
the fallback glyph of 4 lines of exactly 3 spaces. -/
theorem C8_fallback_glyph (d : String) (h1 : d ≠ "Clear")
    (h2 : d ≠ "Clouds") (h3 : d ≠ "Rain") (h4 : d ≠ "Snow") :
    artFor d = ["   ", "   ", "   ", "   "] := by
  simp [artFor, weather_art, h1, h2, h3, h4, binding]

/-- C8, witness at the unrecognized label "Fog". -/
theorem C8_witness :
    ("Fog" ≠ "Clear" ∧ "Fog" ≠ "Clouds" ∧ "Fog" ≠ "Rain" ∧
     "Fog" ≠ "Snow") ∧
    artFor "Fog" = ["   ", "   ", "   ", "   "] :=
  ⟨⟨by decide, by decide, by decide, by decide⟩,
   C8_fallback_glyph "Fog" (by decide) (by decide) (by decide)
     (by decide)⟩

/-- C10: for every condition label the glyph (table entry or fallback)
has exactly 4 lines, and for every input JSON the rendered report has
exactly 4 lines, so the presenter's element accesses 0..3 (and the
width's use of line 4) are in bounds and rendering is total. -/
theorem C10_glyphs_and_render_total (d : String) (j : Json) :
    (artFor d).length = 4 ∧ (print_weather_info j).length = 4 := by
  constructor
  · unfold artFor weather_art binding
    split_ifs <;> rfl
  · rfl

/-- C2: in the rendered report, line 2 pairs the label "Min" with the
value read from `main.temp_max` and line 3 pairs the label "Max" with
the value read from `weather[0].temp_min`; the mismatch is reproduced
exactly (at the Reno fixture, "Min" shows 71, the maximum, and "Max"
shows 58). -/
theorem C2_min_max_label_mismatch (j : Json) :
    (print_weather_info j).map WLine.label =
      ["Temperature", "Min", "Max", "Wind Speed"] ∧
    ((print_weather_info j)[1]?).map WLine.value = some (tempMaxOf j) ∧
    ((print_weather_info j)[2]?).map WLine.value = some (tempMinOf j) ∧
    tempMaxOf j =
      (((j.indexStr "main").indexStr "temp_max").as_f64).getD 0 ∧
    tempMinOf j =
      ((((j.indexStr "weather").indexNat 0).indexStr
          "temp_min").as_f64).getD 0 ∧
    (print_weather_info renoJson).map (fun l => (l.label, l.value)) =
      [("Temperature", 65), ("Min", 71), ("Max", 58),
       ("Wind Speed", 5)] := by
  refine ⟨rfl, rfl, rfl, rfl, rfl, by decide⟩

/-- C9: field extraction is total, and each field whose JSON lookup is
missing or of the wrong type gets its default: 0 for the four numeric
fields, "Unknown" for the city name and the condition label. -/
theorem C9_extraction_defaults (j : Json) :
    (((j.indexStr "main").indexStr "temp").as_f64 = none →
      tempOf j = 0) ∧
    (((j.indexStr "main").indexStr "temp_max").as_f64 = none →
      tempMaxOf j = 0) ∧
    ((((j.indexStr "weather").indexNat 0).indexStr
        "temp_min").as_f64 = none → tempMinOf j = 0) ∧
    (((j.indexStr "wind").indexStr "speed").as_f64 = none →
      windSpeedOf j = 0) ∧
    ((j.indexStr "name").as_str = none → cityOf j = "Unknown") ∧
    ((((j.indexStr "weather").indexNat 0).indexStr
        "main").as_str = none → descriptionOf j = "Unknown") := by
  refine ⟨?_, ?_, ?_, ?_, ?_, ?_⟩ <;> intro h <;>
    simp [tempOf, tempMaxOf, tempMinOf, windSpeedOf, cityOf,
      descriptionOf, h]

/-- C9, witness: all six defaults at `Json.null`, where every lookup is
missing. -/
theorem C9_witness :
    tempOf Json.null = 0 ∧ tempMaxOf Json.null = 0 ∧
    tempMinOf Json.null = 0 ∧ windSpeedOf Json.null = 0 ∧
    cityOf Json.null = "Unknown" ∧
    descriptionOf Json.null = "Unknown" :=
  ⟨(C9_extraction_defaults Json.null).1 rfl,
   (C9_extraction_defaults Json.null).2.1 rfl,
   (C9_extraction_defaults Json.null).2.2.1 rfl,
   (C9_extraction_defaults Json.null).2.2.2.1 rfl,
   (C9_extraction_defaults Json.null).2.2.2.2.1 rfl,
   (C9_extraction_defaults Json.null).2.2.2.2.2 rfl⟩

/-- C4: in the setup flow's ZIP step, when a non-empty ZIP is entered
and the geocode call fails, the config's latitude and longitude after
update_config equal their values before it, and the failure is reported
in the printed messages. -/
theorem C4_zip_geocode_fail_keeps_coords (env : Env) (c : Config)
    (keyIn unitsIn zipIn e : String)
    (h1 : (rustTrim zipIn).isEmpty = false)
    (h2 : env.geocode (rustTrim zipIn) (prompt_update c.api_key keyIn) =
      .error e) :
    (update_config env c [keyIn, unitsIn, zipIn]).config.latitude =
      c.latitude ∧
    (update_config env c [keyIn, unitsIn, zipIn]).config.longitude =
      c.longitude ∧
    ("Failed to retrieve coordinates: " ++ e) ∈
      (update_config env c [keyIn, unitsIn, zipIn]).messages := by
  simp only [prompt_update] at h2
  simp [update_config, promptStep, read_line, prompt_update, zipStep,
    h1, h2]

/-- C4, witness: a concrete setup run entering ZIP " 89501 " against a
failing geocoder leaves latitude 39 and longitude -119 unchanged. -/
theorem C4_witness :
    (rustTrim " 89501 \n").isEmpty = false ∧
    (Env.mk [] (fun _ _ => .error "nope")
        (fun _ _ _ _ => .error "nope")).geocode (rustTrim " 89501 \n")
      (prompt_update "old" "k\n") = .error "nope" ∧
    ((update_config
        (Env.mk [] (fun _ _ => .error "nope")
          (fun _ _ _ _ => .error "nope"))
        (Config.mk "old" 39 (-119) "metric")
        ["k\n", "\n", " 89501 \n"]).config.latitude = 39 ∧
     (update_config
        (Env.mk [] (fun _ _ => .error "nope")
          (fun _ _ _ _ => .error "nope"))
        (Config.mk "old" 39 (-119) "metric")
        ["k\n", "\n", " 89501 \n"]).config.longitude = -119 ∧
     ("Failed to retrieve coordinates: " ++ "nope") ∈
       (update_config
          (Env.mk [] (fun _ _ => .error "nope")
            (fun _ _ _ _ => .error "nope"))
          (Config.mk "old" 39 (-119) "metric")
          ["k\n", "\n", " 89501 \n"]).messages) :=
  ⟨by decide, rfl,
   C4_zip_geocode_fail_keeps_coords
     (Env.mk [] (fun _ _ => .error "nope")
       (fun _ _ _ _ => .error "nope"))
     (Config.mk "old" 39 (-119) "metric")
     "k\n" "\n" " 89501 \n" "nope" (by decide) rfl⟩

/-- C3, counterexample: contrary to the claim, a run past the API-key
gate with `--zip 99999` whose geocode call fails does not exit 0: it
hits the `todo!()` placeholder and the process panics. -/
theorem C3_zip_geocode_panic_cex :
    (runMain offlineEnv zipArgs keyFs).outcome = Outcome.panicked ∧
    (runMain offlineEnv zipArgs keyFs).outcome ≠ Outcome.exit0 := by
  exact ⟨rfl, by decide⟩

/-- C3, amended: every run that reaches the weather-fetch call (no
`--zip`, or a `--zip` whose geocode succeeded) exits 0 even when the
fetch fails, printing the error to the diagnostic stream; a failing
`--zip` geocode instead panics through the `todo!()` placeholder. -/
theorem C3_fetch_fail_exit_zero (env : Env) (args : Args) (cfg : Config)
    (fs : FS) (lat lon : ℚ) (e : String)
    (hsetup : args.setup = false)
    (hkey : cfg.api_key.isEmpty = false)
    (hcoords : resolveCoords env args.zip cfg.api_key cfg.latitude
      cfg.longitude = some (lat, lon))
    (hfetch : env.weather cfg.api_key lat lon cfg.units = .error e) :
    (runAfterLoad env args cfg fs).outcome = Outcome.exit0 ∧
    (runAfterLoad env args cfg fs).stderr =
      ["Error fetching weather data: " ++ e] := by
  simp [runAfterLoad, hsetup, hkey, hcoords, hfetch]

/-- C3, witness: a concrete configured run with a failing weather fetch
exits 0 with the error on the diagnostic stream. -/
theorem C3_witness :
    noFlags.setup = false ∧ cfgWithKey.api_key.isEmpty = false ∧
    resolveCoords offlineEnv noFlags.zip cfgWithKey.api_key
      cfgWithKey.latitude cfgWithKey.longitude = some (10, 20) ∧
    offlineEnv.weather cfgWithKey.api_key 10 20 cfgWithKey.units =
      .error "offline" ∧
    ((runAfterLoad offlineEnv noFlags cfgWithKey emptyFs).outcome =
       Outcome.exit0 ∧
     (runAfterLoad offlineEnv noFlags cfgWithKey emptyFs).stderr =
       ["Error fetching weather data: " ++ "offline"]) :=
  ⟨rfl, rfl, rfl, rfl,
   C3_fetch_fail_exit_zero offlineEnv noFlags cfgWithKey emptyFs
     10 20 "offline" rfl rfl rfl rfl⟩

/-- Padding with zero spaces on both sides is the identity. -/
theorem spaces_zero_pad (s : String) : spaces 0 ++ s ++ spaces 0 = s := by
  apply String.ext
  simp [spaces]

/-- C7: the presenter's display width is max(length of glyph line 4,
length of the city name); the city name and the first three glyph lines
are each centered to that width by `centerPad`, which splits the space
padding with the extra space on the right when the amount is odd; for
condition "Clear" and city "Reno" the width is 7 and all four left
segments have length 7. -/
theorem C7_width_and_centering (j : Json) (s : String) (w : Nat)
    (h : s.length ≤ w) :
    (∃ l r, centerPad s w = spaces l ++ s ++ spaces r ∧
       l + s.length + r = w ∧ (r = l ∨ r = l + 1)) ∧
    displayWidth j =
      max ((artFor (descriptionOf j)).getD 3 "").length
        (cityOf j).length ∧
    (print_weather_info j).map WLine.left =
      [centerPad ((artFor (descriptionOf j)).getD 0 "") (displayWidth j),
       centerPad ((artFor (descriptionOf j)).getD 1 "") (displayWidth j),
       centerPad ((artFor (descriptionOf j)).getD 2 "") (displayWidth j),
       centerPad (cityOf j) (displayWidth j)] ∧
    displayWidth renoJson = 7 ∧
    (print_weather_info renoJson).map (fun ln => ln.left.length) =
      [7, 7, 7, 7] := by
  refine ⟨?_, rfl, rfl, by decide, by decide⟩
  rcases Nat.lt_or_ge s.length w with hlt | hge
  · refine ⟨(w - s.length) / 2, w - s.length - (w - s.length) / 2,
      ?_, by omega, by omega⟩
    simp only [centerPad]
    rw [if_neg (by omega)]
  · refine ⟨0, 0, ?_, by omega, Or.inl rfl⟩
    simp only [centerPad]
    rw [if_pos (by omega), spaces_zero_pad]

/-- C7, witness: the theorem at the Reno/Clear fixture with the city
name "Reno" centered in width 7. -/
theorem C7_witness :
    "Reno".length ≤ 7 ∧
    ((∃ l r, centerPad "Reno" 7 = spaces l ++ "Reno" ++ spaces r ∧
        l + "Reno".length + r = 7 ∧ (r = l ∨ r = l + 1)) ∧
     displayWidth renoJson =
       max ((artFor (descriptionOf renoJson)).getD 3 "").length
         (cityOf renoJson).length ∧
     (print_weather_info renoJson).map WLine.left =
       [centerPad ((artFor (descriptionOf renoJson)).getD 0 "")
          (displayWidth renoJson),
        centerPad ((artFor (descriptionOf renoJson)).getD 1 "")
          (displayWidth renoJson),
        centerPad ((artFor (descriptionOf renoJson)).getD 2 "")
          (displayWidth renoJson),
        centerPad (cityOf renoJson) (displayWidth renoJson)] ∧
     displayWidth renoJson = 7 ∧
     (print_weather_info renoJson).map (fun ln => ln.left.length) =
       [7, 7, 7, 7]) :=
  ⟨by decide, C7_width_and_centering renoJson "Reno" 7 (by decide)⟩

end RustyWeather
